import Mathlib

/-!
Verification of the NGL message-sender core (techin.py): the transport
outcome classification in `send_ngl_message` and the retry/backoff
submission loop in `send_multiple_messages`, shallowly embedded in Lean.

Machine reals: the only real-number arithmetic in the program is
`30 * 1.5 ** (k - 1)` capped at 300.  We model it over ℚ; this is exact with
respect to Python binary64 floats on every value the program can compute,
because 1.5 = 3/2 is a dyadic rational and 3^n stays below 2^53 until the
cap has long since flattened the value to exactly 300.
-/

namespace Techin

/-- The six outcome classes a single transport attempt can produce
(spec section 3, data model `SendOutcome`). -/
inductive SendOutcome where
  | success
  | rateLimited
  | timeout
  | connectionError
  | httpStatus (code : Nat)
  | otherError (detail : String)
deriving DecidableEq

/-- The `(success, status_message)` pair `send_ngl_message` returns for each
outcome class (techin.py lines 61-73). -/
def statusOf : SendOutcome → Bool × String
  | .success => (true, "Success")
  | .rateLimited => (false, "Rate limited (429)")
  | .timeout => (false, "Request timeout")
  | .connectionError => (false, "Connection error")
  | .httpStatus code => (false, "Status code: " ++ toString code)
  | .otherError detail => (false, "Request error: " ++ detail)

/-- The observable result of one HTTP attempt, after the connection layer's
own retries: a final status code, or one of the exception classes caught in
techin.py lines 68-73. -/
inductive TransportResult where
  | status (code : Nat)
  | timeoutExc
  | connectionExc
  | requestExc (detail : String)
deriving DecidableEq

/-- Embedding of `send_ngl_message` (techin.py lines 58-73): classify one
transport result into the `(success, status_message)` pair returned to the
loop. -/
def send_ngl_message : TransportResult → Bool × String
  | .status code =>
      if code = 200 then (true, "Success")
      else if code = 429 then (false, "Rate limited (429)")
      else (false, "Status code: " ++ toString code)
  | .timeoutExc => (false, "Request timeout")
  | .connectionExc => (false, "Connection error")
  | .requestExc detail => (false, "Request error: " ++ detail)

/-- The outcome class named by each transport result; `send_ngl_message`
is `statusOf` composed with this map. -/
def classifyOutcome : TransportResult → SendOutcome
  | .status code =>
      if code = 200 then .success
      else if code = 429 then .rateLimited
      else .httpStatus code
  | .timeoutExc => .timeout
  | .connectionExc => .connectionError
  | .requestExc detail => .otherError detail

/-- Substring containment on lists, modelling the Python `in` operator for
strings (the needle list occurs contiguously in the haystack list). -/
def listHasInfix (needle : List Char) : List Char → Bool
  | [] => needle.isEmpty
  | c :: rest => needle.isPrefixOf (c :: rest) || listHasInfix needle rest

/-- Python `"429" in s` (the branch test at techin.py line 111). -/
def contains429 (s : String) : Bool := listHasInfix "429".toList s.toList

/-- Python `s.strip()` (techin.py line 131): remove leading and trailing
whitespace. -/
def pyStrip (s : String) : String :=
  String.mk
    (((s.toList.dropWhile Char.isWhitespace).reverse.dropWhile
        Char.isWhitespace).reverse)

/-- `base_wait_time` (techin.py line 92). -/
def base_wait_time : ℚ := 30

/-- The rate-limit backoff delay computed at techin.py lines 116-117:
`min(base_wait_time * 1.5 ** (k - 1), 300)` for the k-th consecutive
rate limit. -/
def wait_time (k : Nat) : ℚ := min (base_wait_time * (3 / 2) ^ (k - 1)) 300

/-- The loop state of `send_multiple_messages`, plus instrumentation
counters for observable events: `passes` counts loop iterations, `skips`
counts failures that advanced `i` (the non-rate-limit failure branch),
`prompts` counts times the interactive continue/abort prompt was shown, and
`countdown_total` counts the one-second countdown sleeps performed. -/
structure LoopState where
  success_count : Nat
  fail_count : Nat
  consecutive_rate_limits : Nat
  i : Nat
  aborted : Bool
  passes : Nat
  skips : Nat
  prompts : Nat
  countdown_total : Nat
deriving DecidableEq

/-- The state at loop entry (techin.py lines 89-94). -/
def initState : LoopState :=
  { success_count := 0, fail_count := 0, consecutive_rate_limits := 0,
    i := 1, aborted := false, passes := 0, skips := 0, prompts := 0,
    countdown_total := 0 }

/-- One pass of the `while i <= count` loop body (techin.py lines 96-152),
given the outcome of that pass's attempt and the string the user would type
at the continue/abort prompt if it is shown this pass.  `aborted` records
the `break` at line 135. -/
def step (st : LoopState) (o : SendOutcome) (choice : String) : LoopState :=
  if (statusOf o).1 then
    { st with success_count := st.success_count + 1
              consecutive_rate_limits := 0
              i := st.i + 1
              passes := st.passes + 1 }
  else if contains429 (statusOf o).2 then
    if st.consecutive_rate_limits + 1 ≥ 3 then
      if pyStrip choice = "2" then
        { st with fail_count := st.fail_count + 1
                  consecutive_rate_limits := st.consecutive_rate_limits + 1
                  aborted := true
                  passes := st.passes + 1
                  prompts := st.prompts + 1 }
      else
        { st with fail_count := st.fail_count + 1
                  consecutive_rate_limits := st.consecutive_rate_limits + 1
                  passes := st.passes + 1
                  prompts := st.prompts + 1
                  countdown_total := st.countdown_total +
                    (⌊wait_time (st.consecutive_rate_limits + 1)⌋).toNat }
    else
      { st with fail_count := st.fail_count + 1
                consecutive_rate_limits := st.consecutive_rate_limits + 1
                passes := st.passes + 1
                countdown_total := st.countdown_total +
                  (⌊wait_time (st.consecutive_rate_limits + 1)⌋).toNat }
  else
    { st with fail_count := st.fail_count + 1
              consecutive_rate_limits := 0
              i := st.i + 1
              passes := st.passes + 1
              skips := st.skips + 1 }

/-- The whole loop of `send_multiple_messages` (techin.py lines 94-152),
driven by a finite list of simulated attempt outcomes, each paired with the
prompt reply available that pass.  A pass runs while `i ≤ count` and no
abort has happened; the run also stops when the simulated outcomes are
exhausted. -/
def send_multiple_messages (count : Nat) :
    List (SendOutcome × String) → LoopState → LoopState
  | [], st => st
  | (o, c) :: rest, st =>
      if st.i ≤ count ∧ st.aborted = false then
        send_multiple_messages count rest (step st o c)
      else st

/-- A full simulated run from the initial state. -/
def run (count : Nat) (os : List (SendOutcome × String)) : LoopState :=
  send_multiple_messages count os initState

/-- Whether the final summary prints a success-rate line
(techin.py lines 159-160: only when `success_count > 0`). -/
def showsSuccessRate (st : LoopState) : Bool := decide (0 < st.success_count)

/-- The percentage printed by the success-rate line
(techin.py line 160). -/
def successRate (st : LoopState) : ℚ :=
  (st.success_count : ℚ) / ((st.success_count : ℚ) + (st.fail_count : ℚ)) * 100

/-! ### Branch-shape lemmas for one loop pass -/

lemma step_success_eq (st : LoopState) (o : SendOutcome) (c : String)
    (h : (statusOf o).1 = true) :
    step st o c =
      { st with success_count := st.success_count + 1
                consecutive_rate_limits := 0
                i := st.i + 1
                passes := st.passes + 1 } := by
  simp [step, h]

lemma step_other_eq (st : LoopState) (o : SendOutcome) (c : String)
    (h1 : (statusOf o).1 = false) (h2 : contains429 (statusOf o).2 = false) :
    step st o c =
      { st with fail_count := st.fail_count + 1
                consecutive_rate_limits := 0
                i := st.i + 1
                passes := st.passes + 1
                skips := st.skips + 1 } := by
  simp [step, h1, h2]

lemma step_rl_abort_eq (st : LoopState) (o : SendOutcome) (c : String)
    (h1 : (statusOf o).1 = false) (h2 : contains429 (statusOf o).2 = true)
    (h3 : 3 ≤ st.consecutive_rate_limits + 1) (h4 : pyStrip c = "2") :
    step st o c =
      { st with fail_count := st.fail_count + 1
                consecutive_rate_limits := st.consecutive_rate_limits + 1
                aborted := true
                passes := st.passes + 1
                prompts := st.prompts + 1 } := by
  simp [step, h1, h2, h3, h4]

lemma step_rl_wait_prompt_eq (st : LoopState) (o : SendOutcome) (c : String)
    (h1 : (statusOf o).1 = false) (h2 : contains429 (statusOf o).2 = true)
    (h3 : 3 ≤ st.consecutive_rate_limits + 1) (h4 : pyStrip c ≠ "2") :
    step st o c =
      { st with fail_count := st.fail_count + 1
                consecutive_rate_limits := st.consecutive_rate_limits + 1
                passes := st.passes + 1
                prompts := st.prompts + 1
                countdown_total := st.countdown_total +
                  (⌊wait_time (st.consecutive_rate_limits + 1)⌋).toNat } := by
  simp [step, h1, h2, h3, h4]

lemma step_rl_wait_eq (st : LoopState) (o : SendOutcome) (c : String)
    (h1 : (statusOf o).1 = false) (h2 : contains429 (statusOf o).2 = true)
    (h3 : ¬ 3 ≤ st.consecutive_rate_limits + 1) :
    step st o c =
      { st with fail_count := st.fail_count + 1
                consecutive_rate_limits := st.consecutive_rate_limits + 1
                passes := st.passes + 1
                countdown_total := st.countdown_total +
                  (⌊wait_time (st.consecutive_rate_limits + 1)⌋).toNat } := by
  simp [step, h1, h2, h3]

/-! ### Invariants of the loop -/

/-- Bookkeeping invariant tying the tallies to the pass count and the slot
index: each pass records exactly one tally, and the slot index equals one
plus the number of slot-consuming passes (successes and skipped
failures). -/
def TallyInv (st : LoopState) : Prop :=
  st.success_count + st.fail_count = st.passes ∧
  st.i = 1 + st.success_count + st.skips

lemma tallyInv_init : TallyInv initState := by
  constructor <;> rfl

lemma step_tallyInv (st : LoopState) (o : SendOutcome) (c : String)
    (h : TallyInv st) : TallyInv (step st o c) := by
  obtain ⟨h1, h2⟩ := h
  by_cases hs : (statusOf o).1 = true
  · rw [step_success_eq st o c hs]
    constructor <;> simp <;> omega
  · rw [Bool.not_eq_true] at hs
    by_cases h429 : contains429 (statusOf o).2 = true
    · by_cases hp : 3 ≤ st.consecutive_rate_limits + 1
      · by_cases hc : pyStrip c = "2"
        · rw [step_rl_abort_eq st o c hs h429 hp hc]
          constructor <;> simp <;> omega
        · rw [step_rl_wait_prompt_eq st o c hs h429 hp hc]
          constructor <;> simp <;> omega
      · rw [step_rl_wait_eq st o c hs h429 hp]
        constructor <;> simp <;> omega
    · rw [Bool.not_eq_true] at h429
      rw [step_other_eq st o c hs h429]
      constructor <;> simp <;> omega

lemma step_i_le_succ (st : LoopState) (o : SendOutcome) (c : String) :
    (step st o c).i ≤ st.i + 1 := by
  unfold step
  split_ifs <;> simp

lemma run_tallyInv (count : Nat) (os : List (SendOutcome × String))
    (st : LoopState) (h : TallyInv st) :
    TallyInv (send_multiple_messages count os st) := by
  induction os generalizing st with
  | nil => exact h
  | cons p rest ih =>
      obtain ⟨o, c⟩ := p
      unfold send_multiple_messages
      split
      · exact ih _ (step_tallyInv st o c h)
      · exact h

lemma run_i_le (count : Nat) (os : List (SendOutcome × String))
    (st : LoopState) (h : st.i ≤ count + 1) :
    (send_multiple_messages count os st).i ≤ count + 1 := by
  induction os generalizing st with
  | nil => exact h
  | cons p rest ih =>
      obtain ⟨o, c⟩ := p
      unfold send_multiple_messages
      split
      · rename_i hguard
        apply ih
        have := step_i_le_succ st o c
        omega
      · exact h

lemma run_of_aborted (count : Nat) (os : List (SendOutcome × String))
    (st : LoopState) (h : st.aborted = true) :
    send_multiple_messages count os st = st := by
  cases os with
  | nil => rfl
  | cons p rest =>
      obtain ⟨o, c⟩ := p
      unfold send_multiple_messages
      simp [h]

/-! ### Claims -/

/-- C1 (amended): for every finite sequence of simulated outcomes driving
the loop with count ≥ 1, the final successes tally plus the final failures
tally (rate-limit retries each counted as a failure) equals the number of
loop passes taken; and when the loop has ended by exhausting the slots
(index past count, no abort), the successes plus the slots skipped by
non-rate-limit failures equal exactly count — so exactly count successes
exactly when no slot was skipped. -/
theorem C1_tally_and_termination (count : Nat)
    (os : List (SendOutcome × String)) (_hcount : 1 ≤ count) :
    ((run count os).success_count + (run count os).fail_count =
      (run count os).passes) ∧
    ((run count os).aborted = false → count < (run count os).i →
      (run count os).success_count + (run count os).skips = count ∧
      ((run count os).skips = 0 → (run count os).success_count = count)) := by
  have hinv := run_tallyInv count os initState tallyInv_init
  have hle := run_i_le count os initState (by simp [initState])
  obtain ⟨h1, h2⟩ := hinv
  refine ⟨h1, fun _ hgt => ?_⟩
  unfold run at *
  constructor
  · omega
  · omega

/-- C1 witness: a one-message run whose single attempt succeeds satisfies
both parts of the amended claim. -/
theorem C1_witness :
    (run 1 [(SendOutcome.success, "")]).success_count +
        (run 1 [(SendOutcome.success, "")]).fail_count =
      (run 1 [(SendOutcome.success, "")]).passes ∧
    (run 1 [(SendOutcome.success, "")]).success_count +
        (run 1 [(SendOutcome.success, "")]).skips = 1 :=
  ⟨(C1_tally_and_termination 1 [(SendOutcome.success, "")] (by decide)).1,
   ((C1_tally_and_termination 1 [(SendOutcome.success, "")] (by decide)).2
      (by decide) (by decide)).1⟩

/-- C1 counterexample to the claim as stated: with count = 1 and a single
Timeout outcome the loop ends (index past count) without an abort, yet the
success tally is 0, not count = 1. -/
theorem C1_counterexample :
    (run 1 [(SendOutcome.timeout, "")]).aborted = false ∧
    1 < (run 1 [(SendOutcome.timeout, "")]).i ∧
    (run 1 [(SendOutcome.timeout, "")]).success_count ≠ 1 := by
  decide

/-- C2 (amended): a RateLimited outcome leaves the slot index unchanged and
a Success advances it by 1; any failure outcome advances the index by
exactly 1 when its status message does not contain the substring 429
(always true for Timeout and ConnectionError), but leaves the index
unchanged when the message does contain 429 (possible for OtherError
details and HttpStatus codes mentioning 429). -/
theorem C2_index_advance (st : LoopState) (o : SendOutcome) (c : String) :
    (step st SendOutcome.rateLimited c).i = st.i ∧
    (step st SendOutcome.success c).i = st.i + 1 ∧
    ((statusOf o).1 = false → contains429 (statusOf o).2 = false →
      (step st o c).i = st.i + 1) ∧
    ((statusOf o).1 = false → contains429 (statusOf o).2 = true →
      (step st o c).i = st.i) ∧
    contains429 (statusOf SendOutcome.timeout).2 = false ∧
    contains429 (statusOf SendOutcome.connectionError).2 = false := by
  refine ⟨?_, ?_, fun h1 h2 => ?_, fun h1 h2 => ?_, by decide, by decide⟩
  · have h1 : (statusOf SendOutcome.rateLimited).1 = false := by decide
    have h2 : contains429 (statusOf SendOutcome.rateLimited).2 = true := by
      decide
    by_cases hp : 3 ≤ st.consecutive_rate_limits + 1
    · by_cases hc : pyStrip c = "2"
      · rw [step_rl_abort_eq st _ c h1 h2 hp hc]
      · rw [step_rl_wait_prompt_eq st _ c h1 h2 hp hc]
    · rw [step_rl_wait_eq st _ c h1 h2 hp]
  · rw [step_success_eq st _ c (by decide)]
  · rw [step_other_eq st o c h1 h2]
  · by_cases hp : 3 ≤ st.consecutive_rate_limits + 1
    · by_cases hc : pyStrip c = "2"
      · rw [step_rl_abort_eq st o c h1 h2 hp hc]
      · rw [step_rl_wait_prompt_eq st o c h1 h2 hp hc]
    · rw [step_rl_wait_eq st o c h1 h2 hp]

/-- C2 witness: at a concrete state, RateLimited repeats the slot and a
Timeout (whose message lacks 429) advances it. -/
theorem C2_witness :
    (step initState SendOutcome.rateLimited "").i = initState.i ∧
    (step initState SendOutcome.timeout "").i = initState.i + 1 :=
  ⟨(C2_index_advance initState SendOutcome.timeout "").1,
   (C2_index_advance initState SendOutcome.timeout "").2.2.1 (by decide)
     (by decide)⟩

/-- C2 counterexample to the claim as stated: an OtherError whose detail
contains 429 is not RateLimited, yet it leaves the slot index unchanged
instead of advancing it. -/
theorem C2_counterexample :
    SendOutcome.otherError "429" ≠ SendOutcome.rateLimited ∧
    (step initState (SendOutcome.otherError "429") "").i = initState.i := by
  decide

/-- C3 (amended): the consecutive rate-limit counter becomes 0 after any
Success and after any failure whose status message does not contain the
substring 429, and increments by exactly 1 on any failure whose status
message does contain 429 — in particular on every RateLimited outcome, but
also on OtherError details mentioning 429. -/
theorem C3_consecutive_counter (st : LoopState) (o : SendOutcome)
    (c : String) :
    (step st SendOutcome.success c).consecutive_rate_limits = 0 ∧
    ((statusOf o).1 = false → contains429 (statusOf o).2 = false →
      (step st o c).consecutive_rate_limits = 0) ∧
    ((statusOf o).1 = false → contains429 (statusOf o).2 = true →
      (step st o c).consecutive_rate_limits =
        st.consecutive_rate_limits + 1) ∧
    (step st SendOutcome.rateLimited c).consecutive_rate_limits =
      st.consecutive_rate_limits + 1 := by
  refine ⟨?_, fun h1 h2 => ?_, fun h1 h2 => ?_, ?_⟩
  · rw [step_success_eq st _ c (by decide)]
  · rw [step_other_eq st o c h1 h2]
  · by_cases hp : 3 ≤ st.consecutive_rate_limits + 1
    · by_cases hc : pyStrip c = "2"
      · rw [step_rl_abort_eq st o c h1 h2 hp hc]
      · rw [step_rl_wait_prompt_eq st o c h1 h2 hp hc]
    · rw [step_rl_wait_eq st o c h1 h2 hp]
  · have h1 : (statusOf SendOutcome.rateLimited).1 = false := by decide
    have h2 : contains429 (statusOf SendOutcome.rateLimited).2 = true := by
      decide
    by_cases hp : 3 ≤ st.consecutive_rate_limits + 1
    · by_cases hc : pyStrip c = "2"
      · rw [step_rl_abort_eq st _ c h1 h2 hp hc]
      · rw [step_rl_wait_prompt_eq st _ c h1 h2 hp hc]
    · rw [step_rl_wait_eq st _ c h1 h2 hp]

/-- C3 witness: concretely, a Timeout resets the counter and a RateLimited
increments it. -/
theorem C3_witness :
    (step initState SendOutcome.timeout "").consecutive_rate_limits = 0 ∧
    (step initState SendOutcome.rateLimited "").consecutive_rate_limits =
      initState.consecutive_rate_limits + 1 :=
  ⟨(C3_consecutive_counter initState SendOutcome.timeout "").2.1 (by decide)
     (by decide),
   (C3_consecutive_counter initState SendOutcome.timeout "").2.2.2⟩

/-- C3 counterexample to the claim as stated: an OtherError with 429 in its
detail is a non-rate-limited failure, yet the counter increments to 1
instead of resetting to 0. -/
theorem C3_counterexample :
    (statusOf (SendOutcome.otherError "429")).1 = false ∧
    SendOutcome.otherError "429" ≠ SendOutcome.rateLimited ∧
    (step initState (SendOutcome.otherError "429")
      "").consecutive_rate_limits ≠ 0 := by
  decide

/-- C4 (amended): the backoff wait equals
min(30 · 1.5^(consecutiveRateLimits − 1), 300) seconds for every
consecutiveRateLimits ≥ 1; it is monotonically non-decreasing and capped at
300, and the cap takes effect exactly when the uncapped value exceeds 300;
wait(1) = 30, wait(2) = 45, wait(3) = 67.5, but wait(6) = 227.8125 (still
uncapped — the cap first bites at consecutiveRateLimits = 7), and at
consecutiveRateLimits = 9 the uncapped value 30 · 1.5^8 = 768.8671875 is
capped to 300. -/
theorem C4_backoff (k m : Nat) (_hk : 1 ≤ k) (hkm : k ≤ m) :
    wait_time k = min (30 * (3 / 2) ^ (k - 1)) 300 ∧
    wait_time k ≤ wait_time m ∧
    wait_time k ≤ 300 ∧
    (30 * (3 / 2 : ℚ) ^ (k - 1) ≤ 300 →
      wait_time k = 30 * (3 / 2) ^ (k - 1)) ∧
    (300 < 30 * (3 / 2 : ℚ) ^ (k - 1) → wait_time k = 300) ∧
    wait_time 1 = 30 ∧ wait_time 2 = 45 ∧ wait_time 3 = 135 / 2 ∧
    wait_time 6 = 3645 / 16 ∧ wait_time 7 = 300 ∧
    30 * (3 / 2 : ℚ) ^ 8 = 98415 / 128 ∧ wait_time 9 = 300 := by
  have hbase : base_wait_time = 30 := rfl
  refine ⟨by rw [wait_time, hbase], ?_, min_le_right _ _, fun h => ?_,
    fun h => ?_, ?_, ?_, ?_, ?_, ?_, ?_, ?_⟩
  · unfold wait_time
    apply min_le_min _ le_rfl
    rw [hbase]
    have hexp : k - 1 ≤ m - 1 := Nat.sub_le_sub_right hkm 1
    have hpow : (3 / 2 : ℚ) ^ (k - 1) ≤ (3 / 2 : ℚ) ^ (m - 1) :=
      pow_le_pow_right₀ (by norm_num) hexp
    nlinarith
  · rw [wait_time, hbase, min_eq_left h]
  · rw [wait_time, hbase, min_eq_right (le_of_lt h)]
  · norm_num [wait_time, base_wait_time]
  · norm_num [wait_time, base_wait_time]
  · norm_num [wait_time, base_wait_time]
  · norm_num [wait_time, base_wait_time]
  · norm_num [wait_time, base_wait_time]
  · norm_num
  · norm_num [wait_time, base_wait_time]

/-- C4 witness: the amended backoff facts at consecutiveRateLimits = 1
against 6. -/
theorem C4_witness :
    wait_time 1 = min (30 * (3 / 2) ^ (1 - 1)) 300 ∧
    wait_time 1 ≤ wait_time 6 ∧ wait_time 1 ≤ 300 :=
  ⟨(C4_backoff 1 6 (by decide) (by decide)).1,
   (C4_backoff 1 6 (by decide) (by decide)).2.1,
   (C4_backoff 1 6 (by decide) (by decide)).2.2.1⟩

/-- C4 counterexample to the claim as stated: at the sixth consecutive rate
limit the wait is 30 · 1.5^5 = 227.8125 seconds, not the claimed 300. -/
theorem C4_counterexample : wait_time 6 ≠ 300 := by
  norm_num [wait_time, base_wait_time]

/-- C5 (amended): the continue/abort prompt is shown in a pass exactly when
the pass takes the rate-limit branch (failure outcome whose status message
contains 429 — in particular every RateLimited outcome) and the updated
consecutive rate-limit counter is at least 3; choosing abort there ends the
loop immediately: the pass sets the aborted flag without advancing the
index, and an aborted state takes no further passes, going straight to the
summary. -/
theorem C5_prompt_and_abort (st st' : LoopState) (o : SendOutcome)
    (c : String) (count : Nat) (os : List (SendOutcome × String)) :
    ((statusOf o).1 = false → contains429 (statusOf o).2 = true →
      3 ≤ st.consecutive_rate_limits + 1 →
      (step st o c).prompts = st.prompts + 1) ∧
    ((statusOf o).1 = true ∨ contains429 (statusOf o).2 = false ∨
        st.consecutive_rate_limits + 1 < 3 →
      (step st o c).prompts = st.prompts) ∧
    ((statusOf o).1 = false → contains429 (statusOf o).2 = true →
      3 ≤ st.consecutive_rate_limits + 1 → pyStrip c = "2" →
      (step st o c).aborted = true ∧ (step st o c).i = st.i) ∧
    (st'.aborted = true → send_multiple_messages count os st' = st') := by
  refine ⟨fun h1 h2 h3 => ?_, fun h => ?_, fun h1 h2 h3 h4 => ?_,
    fun h => run_of_aborted count os st' h⟩
  · by_cases hc : pyStrip c = "2"
    · rw [step_rl_abort_eq st o c h1 h2 h3 hc]
    · rw [step_rl_wait_prompt_eq st o c h1 h2 h3 hc]
  · rcases h with h | h | h
    · rw [step_success_eq st o c h]
    · by_cases hs : (statusOf o).1 = true
      · rw [step_success_eq st o c hs]
      · rw [Bool.not_eq_true] at hs
        rw [step_other_eq st o c hs h]
    · by_cases hs : (statusOf o).1 = true
      · rw [step_success_eq st o c hs]
      · rw [Bool.not_eq_true] at hs
        by_cases h429 : contains429 (statusOf o).2 = true
        · rw [step_rl_wait_eq st o c hs h429 (by omega)]
        · rw [Bool.not_eq_true] at h429
          rw [step_other_eq st o c hs h429]
  · rw [step_rl_abort_eq st o c h1 h2 h3 h4]
    exact ⟨rfl, rfl⟩

/-- C5 witness: with the counter at 2, a RateLimited pass shows the prompt,
and the reply 2 aborts; the aborted state takes no further passes. -/
theorem C5_witness :
    (step { initState with consecutive_rate_limits := 2 }
        SendOutcome.rateLimited "2").prompts =
      { initState with consecutive_rate_limits := 2 }.prompts + 1 ∧
    (step { initState with consecutive_rate_limits := 2 }
        SendOutcome.rateLimited "2").aborted = true ∧
    send_multiple_messages 5 [(SendOutcome.success, "")]
        { initState with aborted := true } =
      { initState with aborted := true } :=
  ⟨(C5_prompt_and_abort { initState with consecutive_rate_limits := 2 }
      { initState with aborted := true } SendOutcome.rateLimited "2" 5
      [(SendOutcome.success, "")]).1 (by decide) (by decide) (by decide),
   ((C5_prompt_and_abort { initState with consecutive_rate_limits := 2 }
      { initState with aborted := true } SendOutcome.rateLimited "2" 5
      [(SendOutcome.success, "")]).2.2.1 (by decide) (by decide) (by decide)
      (by decide)).1,
   (C5_prompt_and_abort { initState with consecutive_rate_limits := 2 }
      { initState with aborted := true } SendOutcome.rateLimited "2" 5
      [(SendOutcome.success, "")]).2.2.2 (by decide)⟩

/-- C5 counterexample to the claim as stated: the prompt can be shown in a
pass whose outcome is not RateLimited — an OtherError with 429 in its
detail, arriving when the counter is 2, triggers the prompt. -/
theorem C5_counterexample :
    SendOutcome.otherError "429" ≠ SendOutcome.rateLimited ∧
    (step { initState with consecutive_rate_limits := 2 }
        (SendOutcome.otherError "429") "1").prompts =
      { initState with consecutive_rate_limits := 2 }.prompts + 1 := by
  decide

/-- C6 (confirmed): a single transport attempt is classified exactly as the
spec says — status 200 gives Success, 429 gives RateLimited, any other
status gives HttpStatus(code), a timeout gives Timeout, a connection
failure gives ConnectionError, any other transport exception gives
OtherError(detail) — and Success is the only outcome whose success flag is
true. -/
theorem C6_transport_classification (code : Nat) (detail : String)
    (h200 : code ≠ 200) (h429 : code ≠ 429) :
    send_ngl_message (TransportResult.status 200) =
      statusOf SendOutcome.success ∧
    send_ngl_message (TransportResult.status 429) =
      statusOf SendOutcome.rateLimited ∧
    send_ngl_message (TransportResult.status code) =
      statusOf (SendOutcome.httpStatus code) ∧
    send_ngl_message TransportResult.timeoutExc =
      statusOf SendOutcome.timeout ∧
    send_ngl_message TransportResult.connectionExc =
      statusOf SendOutcome.connectionError ∧
    send_ngl_message (TransportResult.requestExc detail) =
      statusOf (SendOutcome.otherError detail) ∧
    (∀ r, send_ngl_message r = statusOf (classifyOutcome r)) ∧
    (∀ o, (statusOf o).1 = true ↔ o = SendOutcome.success) := by
  refine ⟨rfl, rfl, ?_, rfl, rfl, rfl, fun r => ?_, fun o => ?_⟩
  · simp [send_ngl_message, statusOf, h200, h429]
  · cases r with
    | status n =>
        by_cases h1 : n = 200
        · subst h1; rfl
        · by_cases h2 : n = 429
          · subst h2; rfl
          · simp [send_ngl_message, classifyOutcome, statusOf, h1, h2]
    | timeoutExc => rfl
    | connectionExc => rfl
    | requestExc d => rfl
  · cases o <;> simp [statusOf]

/-- C6 witness: the classification facts at status code 500 and a sample
error detail. -/
theorem C6_witness :
    send_ngl_message (TransportResult.status 500) =
      statusOf (SendOutcome.httpStatus 500) ∧
    send_ngl_message (TransportResult.requestExc "boom") =
      statusOf (SendOutcome.otherError "boom") :=
  ⟨(C6_transport_classification 500 "boom" (by decide) (by decide)).2.2.1,
   (C6_transport_classification 500 "boom" (by decide)
      (by decide)).2.2.2.2.2.1⟩

/-- C7 (amended): the final report includes the success rate — computed as
successes / (successes + failures) — exactly when the success tally is
positive (which itself forces the denominator nonzero); whenever the
success tally is zero the rate is omitted, even if failures occurred, so a
run with zero successes and at least one failure omits the rate instead of
reporting 0%. -/
theorem C7_summary_rate (st : LoopState) :
    (showsSuccessRate st = true ↔ 0 < st.success_count) ∧
    (0 < st.success_count →
      (st.success_count : ℚ) + (st.fail_count : ℚ) ≠ 0 ∧
      successRate st =
        (st.success_count : ℚ) /
          ((st.success_count : ℚ) + (st.fail_count : ℚ)) * 100) ∧
    (st.success_count = 0 → showsSuccessRate st = false) := by
  refine ⟨by simp [showsSuccessRate], fun h => ⟨?_, rfl⟩, fun h => ?_⟩
  · have h1 : (1 : ℚ) ≤ (st.success_count : ℚ) := by exact_mod_cast h
    have h2 : (0 : ℚ) ≤ (st.fail_count : ℚ) := Nat.cast_nonneg _
    intro hzero
    nlinarith
  · simp [showsSuccessRate, h]

/-- C7 witness: a run of one successful attempt shows the rate, and its
denominator is nonzero. -/
theorem C7_witness :
    (showsSuccessRate (run 1 [(SendOutcome.success, "")]) = true ↔
      0 < (run 1 [(SendOutcome.success, "")]).success_count) ∧
    ((run 1 [(SendOutcome.success, "")]).success_count : ℚ) +
      ((run 1 [(SendOutcome.success, "")]).fail_count : ℚ) ≠ 0 :=
  ⟨(C7_summary_rate (run 1 [(SendOutcome.success, "")])).1,
   ((C7_summary_rate (run 1 [(SendOutcome.success, "")])).2.1
      (by decide)).1⟩

/-- C7 counterexample to the claim as stated: a run with zero successes and
one failure has a nonzero denominator, yet the report omits the rate
(so it does not report 0%). -/
theorem C7_counterexample :
    showsSuccessRate (run 1 [(SendOutcome.timeout, "")]) = false ∧
    (run 1 [(SendOutcome.timeout, "")]).success_count +
      (run 1 [(SendOutcome.timeout, "")]).fail_count ≠ 0 := by
  decide

/-- C8 (confirmed): for every outcome sequence and every count ≥ 1, the
slot index never exceeds count + 1 at any point of the run — the state
after any number of passes is the final state of the run on the
corresponding prefix of the outcome list, and all finite lists are
quantified over. -/
theorem C8_index_never_exceeds (count : Nat)
    (os : List (SendOutcome × String)) (_hcount : 1 ≤ count) :
    (run count os).i ≤ count + 1 :=
  run_i_le count os initState (by simp [initState])

/-- C8 witness: the bound at count = 1 after one Success pass. -/
theorem C8_witness : (run 1 [(SendOutcome.success, "")]).i ≤ 1 + 1 :=
  C8_index_never_exceeds 1 [(SendOutcome.success, "")] (by decide)

/-- C9 (confirmed): the loop selects the rate-limit branch exactly when
the failure's status message contains the substring 429, not by the
outcome's classification; consequently an OtherError whose detail contains
429 retries the same slot and increments the consecutive rate-limit
counter instead of advancing the index. -/
theorem C9_branch_on_substring (st : LoopState) (o : SendOutcome)
    (c : String) (hfail : (statusOf o).1 = false) :
    (contains429 (statusOf o).2 = true →
      (step st o c).i = st.i ∧
      (step st o c).consecutive_rate_limits =
        st.consecutive_rate_limits + 1) ∧
    (contains429 (statusOf o).2 = false →
      (step st o c).i = st.i + 1 ∧
      (step st o c).consecutive_rate_limits = 0) ∧
    contains429 (statusOf (SendOutcome.otherError "429")).2 = true ∧
    SendOutcome.otherError "429" ≠ SendOutcome.rateLimited ∧
    (step st (SendOutcome.otherError "429") c).i = st.i ∧
    (step st (SendOutcome.otherError "429") c).consecutive_rate_limits =
      st.consecutive_rate_limits + 1 := by
  have key : ∀ o' : SendOutcome, (statusOf o').1 = false →
      contains429 (statusOf o').2 = true →
      (step st o' c).i = st.i ∧
      (step st o' c).consecutive_rate_limits =
        st.consecutive_rate_limits + 1 := by
    intro o' h1 h2
    by_cases hp : 3 ≤ st.consecutive_rate_limits + 1
    · by_cases hc : pyStrip c = "2"
      · rw [step_rl_abort_eq st o' c h1 h2 hp hc]
        exact ⟨rfl, rfl⟩
      · rw [step_rl_wait_prompt_eq st o' c h1 h2 hp hc]
        exact ⟨rfl, rfl⟩
    · rw [step_rl_wait_eq st o' c h1 h2 hp]
      exact ⟨rfl, rfl⟩
  refine ⟨key o hfail, fun h2 => ?_, by decide, by decide, ?_, ?_⟩
  · rw [step_other_eq st o c hfail h2]
    exact ⟨rfl, rfl⟩
  · exact (key (SendOutcome.otherError "429") (by decide) (by decide)).1
  · exact (key (SendOutcome.otherError "429") (by decide) (by decide)).2

/-- C9 witness: at the initial state, an OtherError with 429 in its detail
repeats the slot and bumps the counter, while a plain Timeout advances. -/
theorem C9_witness :
    (step initState (SendOutcome.otherError "429") "").i = initState.i ∧
    (step initState SendOutcome.timeout "").i = initState.i + 1 :=
  ⟨(C9_branch_on_substring initState SendOutcome.timeout ""
      (by decide)).2.2.2.2.1,
   ((C9_branch_on_substring initState SendOutcome.timeout ""
      (by decide)).2.1 (by decide)).1⟩

/-- C10 (confirmed): after a rate-limited pass that does not abort, the
loop performs floor(waitTime) one-second countdown sleeps rather than
waitTime seconds; at the third consecutive rate limit the computed wait is
67.5 seconds but the countdown runs for exactly 67 whole seconds. -/
theorem C10_countdown_truncation (st : LoopState) (o : SendOutcome)
    (c : String) (h1 : (statusOf o).1 = false)
    (h2 : contains429 (statusOf o).2 = true) (h3 : pyStrip c ≠ "2") :
    (step st o c).countdown_total =
      st.countdown_total +
        (⌊wait_time (st.consecutive_rate_limits + 1)⌋).toNat ∧
    wait_time 3 = 135 / 2 ∧ (⌊wait_time 3⌋).toNat = 67 ∧
    ((67 : ℚ) ≠ wait_time 3) := by
  refine ⟨?_, by norm_num [wait_time, base_wait_time], ?_, ?_⟩
  · by_cases hp : 3 ≤ st.consecutive_rate_limits + 1
    · rw [step_rl_wait_prompt_eq st o c h1 h2 hp h3]
    · rw [step_rl_wait_eq st o c h1 h2 hp]
  · have hw : wait_time 3 = 135 / 2 := by norm_num [wait_time, base_wait_time]
    rw [hw, show ⌊(135 : ℚ) / 2⌋ = 67 by norm_num]
    rfl
  · norm_num [wait_time, base_wait_time]

/-- C10 witness: a first RateLimited pass at the initial state adds
floor(waitTime(1)) countdown seconds. -/
theorem C10_witness :
    (step initState SendOutcome.rateLimited "").countdown_total =
      initState.countdown_total +
        (⌊wait_time (initState.consecutive_rate_limits + 1)⌋).toNat ∧
    (⌊wait_time 3⌋).toNat = 67 :=
  ⟨(C10_countdown_truncation initState SendOutcome.rateLimited ""
      (by decide) (by decide) (by decide)).1,
   (C10_countdown_truncation initState SendOutcome.rateLimited ""
      (by decide) (by decide) (by decide)).2.2.1⟩

end Techin
